import Mathlib

/-!
Verification of the anki-mcp-for-voice-agents adapter.

The repository contains four TypeScript program variants:
* `src/simple-server.ts` — the stdio MCP server with five tools
  (listDecks, getNewCards, getDueCards, getNoteInfo, answerCard);
* an express "simple HTTP" variant whose `ankiRequest` throws on a truthy
  upstream `error`;
* an SSE MCP variant with a session-keyed transport table;
* a second stdio variant (listDecks, getDueCards, addNote).

Every definition below is a shallow embedding of one of those programs.
Upstream AnkiConnect responses are supplied by an oracle (a record of
response functions), and each tool handler returns the list of upstream
calls it issues together with a structured rendering of its response.
-/

namespace AnkiMcp

/-- A minimal JSON value model, used for the request envelope body and
for opaque note arguments. -/
inductive Json where
  | null : Json
  | bool (b : Bool) : Json
  | num (n : Int) : Json
  | str (s : String) : Json
  | arr (xs : List Json) : Json
  | obj (fields : List (String × Json)) : Json

/-- Look a key up in a JSON object (first match), mirroring JS property
access on the envelope. -/
def Json.lookup : Json → String → Option Json
  | .obj fields, k => (fields.find? (fun f => f.1 = k)).map (fun f => f.2)
  | _, _ => none

/-- An outbound HTTP request as built by `ankiRequest` (all variants):
`fetch("http://localhost:8765", { method: "POST", body: JSON.stringify({action, version: 6, params}) })`. -/
structure HttpRequest where
  url : String
  method : String
  body : Json

/-- The fixed AnkiConnect endpoint. -/
def ankiConnectUrl : String := "http://localhost:8765"

/-- The request that `ankiRequest action params` sends, embedded from the
`fetch` call shared by every variant. -/
def buildAnkiHttpRequest (action : String) (params : Json) : HttpRequest :=
  { url := ankiConnectUrl
    method := "POST"
    body := Json.obj [("action", Json.str action), ("version", Json.num 6), ("params", params)] }

/-- The AnkiConnect reply shape `{ result: T, error: string | null }`. -/
structure AnkiConnectResponse (T : Type) where
  result : T
  error : Option String

/-- JavaScript truthiness of a `string | null` value: `null` and the empty
string are falsy. -/
def jsTruthy : Option String → Bool
  | none => false
  | some s => !(s == "")

/-- `ankiRequest` of `src/simple-server.ts` (and of the SSE and second
stdio variants): `const { result } = await response.json(); return result;` —
the `error` field is destructured away and never inspected. -/
def ankiRequestSimple {T : Type} (r : AnkiConnectResponse T) : Except String T :=
  Except.ok r.result

/-- `ankiRequest` of the express variant:
`if (result.error) { throw new Error(result.error); } return result.result;`. -/
def ankiRequestExpress {T : Type} (r : AnkiConnectResponse T) : Except String T :=
  if jsTruthy r.error then Except.error (r.error.getD "") else Except.ok r.result

/-- The fields of one `cardsInfo` entry that the handlers read. -/
structure CardInfo where
  cardId : Int
  note : Int
  deckName : String
  modelName : String
  reps : Int
  interval : Int
  due : Int

/-- The per-card summary object built by `getNewCards`/`getDueCards` in
`src/simple-server.ts` (`{noteId, deck, model, reviews, interval, due}`). -/
structure CardData where
  noteId : Int
  deck : String
  model : String
  reviews : Int
  interval : Int
  due : Int

/-- The `cardsInfo.map(card => ...)` projection of `src/simple-server.ts`. -/
def toCardData (c : CardInfo) : CardData :=
  { noteId := c.note
    deck := c.deckName
    model := c.modelName
    reviews := c.reps
    interval := c.interval
    due := c.due }

/-- The fields of one `notesInfo` entry that `getNoteInfo` reads. -/
structure NoteInfo where
  modelName : String
  tags : List String
  fieldsJson : Json
  cards : List Int

/-- One upstream AnkiConnect call, recorded as the action name together
with the parameters the handler passes.  Identifier-typed parameters are
`Option Int` where the source can forward an undefined argument. -/
inductive UpstreamCall where
  | deckNames : UpstreamCall
  | findCards (query : String) : UpstreamCall
  | cardsInfo (cards : List Int) : UpstreamCall
  | notesInfo (notes : List (Option Int)) : UpstreamCall
  | answerCards (answers : List (Option Int × Option Int)) : UpstreamCall
  | addNote (note : Json) : UpstreamCall

/-- The upstream responses available to the non-throwing variants (their
`ankiRequest` never inspects the error field, so only results appear). -/
structure AnkiOracle where
  deckNamesR : List String
  findCardsR : String → List Int
  cardsInfoR : List Int → List CardInfo
  notesInfoR : List (Option Int) → List NoteInfo

/-- The deck-hierarchy separator used by `listDecks`. -/
def deckSep : String := "::"

/-- `deck.includes("::")`: the name splits into at least two pieces. -/
def includesSep (s : String) : Bool :=
  decide (2 ≤ (s.splitOn deckSep).length)

/-- `deck.split("::")[0]`: the substring before the first separator
(`splitOn` always returns a non-empty list, so the default is unused). -/
def parentOf (s : String) : String :=
  (s.splitOn deckSep).headD s

/-- `organized[parent].push(deck)` with on-demand bucket creation, on the
functional reading of a `Record<string, string[]>`. -/
def bucketAdd (m : String → List String) (p d : String) : String → List String :=
  fun k => if k = p then m k ++ [d] else m k

/-- The structured content of the `listDecks` response of
`src/simple-server.ts`: `{summary, totalDecks, mainDecks, organizedDecks}`. -/
structure DecksResponse where
  summary : String
  totalDecks : Nat
  mainDecks : List String
  organizedDecks : String → List String

/-- The `listDecks` case of `src/simple-server.ts`: one `deckNames` call,
then grouping of separator-containing names by their first component. -/
def listDecksHandler (o : AnkiOracle) : List UpstreamCall × DecksResponse :=
  let decks := o.deckNamesR
  let mainDecks := decks.filter (fun d => !(includesSep d))
  let subDecks := decks.filter (fun d => includesSep d)
  let organized := subDecks.foldl (fun m d => bucketAdd m (parentOf d) d) (fun _ => [])
  ([UpstreamCall.deckNames],
   { summary := "Anki Decks Summary"
     totalDecks := decks.length
     mainDecks := mainDecks
     organizedDecks := organized })

/-- `let query = base; if (args?.deckName) { query += ` deck:"..."` }` —
the deck filter is appended only when the argument is a truthy string. -/
def buildQuery (base : String) (deckName : Option String) : String :=
  match deckName with
  | none => base
  | some d => if d = "" then base else base ++ " deck:\"" ++ d ++ "\""

/-- `request.params.arguments?.deckName || "all decks"`. -/
def deckDisplay (deckName : Option String) : String :=
  match deckName with
  | none => "all decks"
  | some d => if d = "" then "all decks" else d

/-- The structured content of a `getNewCards`/`getDueCards` response of
`src/simple-server.ts`: either the zero-count message object or the
`{total, deck, remainingCards, sampleCards}` object. -/
inductive CountResponse where
  | zero (count : Int) (deck : String) (message : String) : CountResponse
  | sample (total : Nat) (deck : String) (remaining : Int) (cards : List CardData) : CountResponse

/-- The `sampleCards` field of the response (absent on the zero branch). -/
def CountResponse.sampleCards : CountResponse → List CardData
  | .zero _ _ _ => []
  | .sample _ _ _ cs => cs

/-- The `remainingCards` field of the response (absent on the zero branch). -/
def CountResponse.remainingCards : CountResponse → Int
  | .zero _ _ _ => 0
  | .sample _ _ r _ => r

/-- Whether the handler took the zero-count early return. -/
def CountResponse.isZero : CountResponse → Bool
  | .zero _ _ _ => true
  | .sample _ _ _ _ => false

/-- The `getNewCards` case of `src/simple-server.ts`: `findCards` on
`"is:new"` (plus optional deck filter); on zero ids an early zero-count
return, otherwise `cardsInfo` on the first five ids. -/
def getNewCardsHandler (o : AnkiOracle) (deckName : Option String) :
    List UpstreamCall × CountResponse :=
  let newQuery := buildQuery "is:new" deckName
  let newCardIds := o.findCardsR newQuery
  if newCardIds.length = 0 then
    ([UpstreamCall.findCards newQuery],
     CountResponse.zero 0 (deckDisplay deckName) "No new cards available for learning")
  else
    let newCardsInfo := o.cardsInfoR (newCardIds.take 5)
    ([UpstreamCall.findCards newQuery, UpstreamCall.cardsInfo (newCardIds.take 5)],
     CountResponse.sample newCardIds.length (deckDisplay deckName)
       (max 0 ((newCardIds.length : Int) - 5)) (newCardsInfo.map toCardData))

/-- The `getDueCards` case of `src/simple-server.ts`: `findCards` on
`"is:due"` (plus optional deck filter); on zero ids an early zero-count
return, otherwise `cardsInfo` on the first five ids. -/
def getDueCardsHandler (o : AnkiOracle) (deckName : Option String) :
    List UpstreamCall × CountResponse :=
  let query := buildQuery "is:due" deckName
  let cardIds := o.findCardsR query
  if cardIds.length = 0 then
    ([UpstreamCall.findCards query],
     CountResponse.zero 0 (deckDisplay deckName) "No cards currently due for review")
  else
    let cardsInfo := o.cardsInfoR (cardIds.take 5)
    ([UpstreamCall.findCards query, UpstreamCall.cardsInfo (cardIds.take 5)],
     CountResponse.sample cardIds.length (deckDisplay deckName)
       (max 0 ((cardIds.length : Int) - 5)) (cardsInfo.map toCardData))

/-- The structured content of a `getNoteInfo` response. -/
inductive NoteInfoResponse where
  | notFound (noteId : Option Int) : NoteInfoResponse
  | found (noteId : Option Int) (modelName : String) (tags : List String)
      (fieldsJson : Json) (cards : List Int) : NoteInfoResponse

/-- The `getNoteInfo` case of `src/simple-server.ts`: one `notesInfo` call
on the single (possibly undefined) note id; an empty reply produces the
not-found object, otherwise the first entry is rendered. -/
def getNoteInfoHandler (o : AnkiOracle) (noteId : Option Int) :
    List UpstreamCall × NoteInfoResponse :=
  match o.notesInfoR [noteId] with
  | [] => ([UpstreamCall.notesInfo [noteId]], NoteInfoResponse.notFound noteId)
  | n :: _ =>
    ([UpstreamCall.notesInfo [noteId]],
     NoteInfoResponse.found noteId n.modelName n.tags n.fieldsJson n.cards)

/-- `easeLabels[ease]`: the fixed label table, undefined outside 1–4 and
for an undefined ease argument. -/
def easeLabelLookup (ease : Option Int) : Option String :=
  match ease with
  | none => none
  | some v =>
    if v = 1 then some "Again (failed)"
    else if v = 2 then some "Hard"
    else if v = 3 then some "Good"
    else if v = 4 then some "Easy"
    else none

/-- The structured content of an `answerCard` response:
`{success: true, cardId, ease, difficulty, message}`. -/
structure AnswerResponse where
  success : Bool
  cardId : Option Int
  ease : Option Int
  difficulty : Option String
  message : String

/-- The `answerCard` case of `src/simple-server.ts`: one `answerCards`
call, then an unconditional success object whose `difficulty` is the
(possibly undefined) label-table lookup. -/
def answerCardHandler (_o : AnkiOracle) (cardId ease : Option Int) :
    List UpstreamCall × AnswerResponse :=
  ([UpstreamCall.answerCards [(cardId, ease)]],
   { success := true
     cardId := cardId
     ease := ease
     difficulty := easeLabelLookup ease
     message := "Card answered successfully" })

/-- The optional fields of `request.params.arguments` read by the
dispatcher of `src/simple-server.ts`. -/
structure ToolArguments where
  deckName : Option String
  noteId : Option Int
  cardId : Option Int
  ease : Option Int

/-- The result of one dispatched tool call of `src/simple-server.ts`. -/
inductive ToolResult where
  | decks (r : DecksResponse) : ToolResult
  | count (r : CountResponse) : ToolResult
  | note (r : NoteInfoResponse) : ToolResult
  | answer (r : AnswerResponse) : ToolResult

/-- The tool names in the catalog of `src/simple-server.ts`. -/
def simpleToolNames : List String :=
  ["listDecks", "getNewCards", "getDueCards", "getNoteInfo", "answerCard"]

/-- The `CallToolRequestSchema` switch of `src/simple-server.ts`; the
`default` branch is `throw new Error("Unknown tool")`, which the hosting
protocol library reports to the caller as an error response. -/
def dispatchTool (o : AnkiOracle) (name : String) (args : ToolArguments) :
    Except String (List UpstreamCall × ToolResult) :=
  if name = "listDecks" then
    let r := listDecksHandler o
    Except.ok (r.1, ToolResult.decks r.2)
  else if name = "getNewCards" then
    let r := getNewCardsHandler o args.deckName
    Except.ok (r.1, ToolResult.count r.2)
  else if name = "getDueCards" then
    let r := getDueCardsHandler o args.deckName
    Except.ok (r.1, ToolResult.count r.2)
  else if name = "getNoteInfo" then
    let r := getNoteInfoHandler o args.noteId
    Except.ok (r.1, ToolResult.note r.2)
  else if name = "answerCard" then
    let r := answerCardHandler o args.cardId args.ease
    Except.ok (r.1, ToolResult.answer r.2)
  else Except.error "Unknown tool"

/-- The `getDueCards` case of the SSE MCP variant (same code in its main
handler and its per-connection handler): `findCards`, then `cardsInfo` on
the full id list, with no empty-list early return. -/
def getDueCardsSse (o : AnkiOracle) (deckName : Option String) :
    List UpstreamCall × Nat × List CardInfo :=
  let query := buildQuery "is:due" deckName
  let cardIds := o.findCardsR query
  let cardsInfo := o.cardsInfoR cardIds
  ([UpstreamCall.findCards query, UpstreamCall.cardsInfo cardIds],
   (cardIds.length, cardsInfo))

/-- Upstream responses for the express variant, whose `ankiRequest` does
inspect the error field: each response carries `{result, error}`. -/
structure ExpressOracle where
  deckNamesR : AnkiConnectResponse (List String)
  findCardsR : String → AnkiConnectResponse (List Int)
  cardsInfoR : List Int → AnkiConnectResponse (List CardInfo)
  addNoteR : Json → AnkiConnectResponse Int

/-- The `tools/call` arguments of the express variant: `deckName` for
`getDueCards`, and the whole arguments object forwarded as the note for
`addNote`. -/
structure ExpressArgs where
  deckName : Option String
  raw : Json

/-- The structured content of an express JSON-RPC `result`. -/
inductive ExpressResult where
  | protoInfo : ExpressResult
  | toolCatalog : ExpressResult
  | dueCards (total : Nat) (shown : List CardInfo) : ExpressResult
  | decksList (decks : List String) : ExpressResult
  | noteAdded (noteId : Int) : ExpressResult
  | resourcesEmpty : ExpressResult

/-- The inner `switch (name)` of the express variant's `tools/call` case.
Each branch threads the throwing `ankiRequest`; the `default` branch is
`throw new Error(`Unknown tool: ${name}`)`.  The first component records
the upstream calls issued before returning or throwing. -/
def expressToolsCall (eo : ExpressOracle) (name : String) (args : ExpressArgs) :
    List UpstreamCall × Except String ExpressResult :=
  if name = "getDueCards" then
    let query := buildQuery "is:due" args.deckName
    match ankiRequestExpress (eo.findCardsR query) with
    | Except.error e => ([UpstreamCall.findCards query], Except.error e)
    | Except.ok cardIds =>
      match ankiRequestExpress (eo.cardsInfoR (cardIds.take 10)) with
      | Except.error e =>
        ([UpstreamCall.findCards query, UpstreamCall.cardsInfo (cardIds.take 10)],
         Except.error e)
      | Except.ok cardsInfo =>
        ([UpstreamCall.findCards query, UpstreamCall.cardsInfo (cardIds.take 10)],
         Except.ok (ExpressResult.dueCards cardIds.length cardsInfo))
  else if name = "listDecks" then
    match ankiRequestExpress eo.deckNamesR with
    | Except.error e => ([UpstreamCall.deckNames], Except.error e)
    | Except.ok decks => ([UpstreamCall.deckNames], Except.ok (ExpressResult.decksList decks))
  else if name = "addNote" then
    match ankiRequestExpress (eo.addNoteR args.raw) with
    | Except.error e => ([UpstreamCall.addNote args.raw], Except.error e)
    | Except.ok nid => ([UpstreamCall.addNote args.raw], Except.ok (ExpressResult.noteAdded nid))
  else ([], Except.error ("Unknown tool: " ++ name))

/-- An HTTP reply of the express `POST /sse` route: either a JSON-RPC
result or an error payload with an HTTP status and JSON-RPC error code. -/
inductive HttpReply where
  | ok (result : ExpressResult) : HttpReply
  | rpcError (status : Int) (code : Int) (message : String) : HttpReply

/-- The express `app.post('/sse')` route: method dispatch inside a
`try`/`catch`; a thrown error (including the unknown-tool throw) is caught
and reported as a 500 reply with JSON-RPC code -32603, and an unknown
method yields a 400 reply with code -32601. -/
def expressPostSse (eo : ExpressOracle) (method name : String) (args : ExpressArgs) :
    HttpReply :=
  if method = "initialize" then HttpReply.ok ExpressResult.protoInfo
  else if method = "tools/list" then HttpReply.ok ExpressResult.toolCatalog
  else if method = "tools/call" then
    match (expressToolsCall eo name args).2 with
    | Except.ok r => HttpReply.ok r
    | Except.error m => HttpReply.rpcError 500 (-32603) m
  else if method = "resources/list" then HttpReply.ok ExpressResult.resourcesEmpty
  else HttpReply.rpcError 400 (-32601) ("Method not found: " ++ method)

/-- The session table of the SSE MCP variant: the JS
`Map<string, SSEServerTransport>` read through `Map.get`, with transports
abbreviated to numeric handles. -/
def SessionTable : Type := String → Option Nat

/-- One event on the session table: `transports.set(sessionId, transport)`
on connection-open, `transports.delete(sessionId)` in `transport.onclose`. -/
inductive SseEvent where
  | openSession (sid : String) (t : Nat) : SseEvent
  | closeSession (sid : String) : SseEvent

/-- The effect of one event on the table. -/
def applySseEvent (m : SessionTable) : SseEvent → SessionTable
  | SseEvent.openSession sid t => fun s => if s = sid then some t else m s
  | SseEvent.closeSession sid => fun s => if s = sid then none else m s

/-- The table after a sequence of open/close events. -/
def runSseEvents (m : SessionTable) (es : List SseEvent) : SessionTable :=
  es.foldl applySseEvent m

/-- The outcome of the SSE variant's `app.post('/sse')` route for one
posted message. -/
inductive PostOutcome where
  | notFound : PostOutcome
  | routed (t : Nat) : PostOutcome

/-- `const transport = transports.get(sessionId); if (!transport) { 404
Session not found } else { transport.handlePostMessage(req, res) }`. -/
def handlePostSse (m : SessionTable) (sid : String) : PostOutcome :=
  match m sid with
  | none => PostOutcome.notFound
  | some t => PostOutcome.routed t

end AnkiMcp

namespace AnkiMcp

/-- An oracle whose `findCards` always reports no matching cards. -/
def oracleEmpty : AnkiOracle :=
  { deckNamesR := []
    findCardsR := fun _ => []
    cardsInfoR := fun _ => []
    notesInfoR := fun _ => [] }

/-- A small concrete oracle: two decks, three due cards, one card info
entry per requested id, one note info entry. -/
def oracleW : AnkiOracle :=
  { deckNamesR := ["Spanish", "Spanish::Verbs", "Maths"]
    findCardsR := fun _ => [11, 12, 13]
    cardsInfoR := fun cs => cs.map (fun c => CardInfo.mk c (c + 100) "Spanish" "Basic" 2 3 5)
    notesInfoR := fun _ => [NoteInfo.mk "Basic" ["tag1"] Json.null [11]] }

/-- The tool names in the catalog of the express variant. -/
def expressToolNames : List String := ["getDueCards", "listDecks", "addNote"]

/-- A small concrete express oracle with error-free responses. -/
def expressOracleW : ExpressOracle :=
  { deckNamesR := AnkiConnectResponse.mk ["Default"] none
    findCardsR := fun _ => AnkiConnectResponse.mk [21, 22] none
    cardsInfoR := fun cs =>
      AnkiConnectResponse.mk (cs.map (fun c => CardInfo.mk c (c + 100) "Default" "Basic" 1 1 1)) none
    addNoteR := fun _ => AnkiConnectResponse.mk 77 none }

/-- A concrete session table holding one live session. -/
def tableW : SessionTable := fun s => if s = "abc123" then some 1 else none

/-- Characterisation of the bucket fold of `listDecks`: after folding a
list into the record, a bucket holds exactly the folded names whose parent
is the bucket key, in input order. -/
theorem bucketFold_apply (l : List String) (m : String → List String) (p : String) :
    (l.foldl (fun acc d => bucketAdd acc (parentOf d) d) m) p
      = m p ++ l.filter (fun d => parentOf d = p) := by
  induction l generalizing m with
  | nil => simp
  | cons d l ih =>
    simp only [List.foldl_cons, List.filter_cons, ih]
    by_cases h : parentOf d = p
    · simp [bucketAdd, h]
    · simp [bucketAdd, h, Ne.symm h]

/-- A session absent from the table stays absent under any event sequence
that never opens it again. -/
theorem runSseEvents_absent (es : List SseEvent) (sid : String) :
    ∀ m : SessionTable, m sid = none →
      (∀ t, SseEvent.openSession sid t ∉ es) → runSseEvents m es sid = none := by
  induction es with
  | nil => intro m hm _; exact hm
  | cons e es ih =>
    intro m hm hes
    simp only [runSseEvents, List.foldl_cons]
    have hes' : ∀ t, SseEvent.openSession sid t ∉ es := fun t ht =>
      hes t (List.mem_cons_of_mem e ht)
    have hm' : applySseEvent m e sid = none := by
      cases e with
      | openSession sid2 t =>
        have hne : sid ≠ sid2 := by
          intro hEq
          subst hEq
          exact hes t (List.mem_cons_self _ _)
        simp [applySseEvent, hne, hm]
      | closeSession sid2 =>
        by_cases h : sid = sid2 <;> simp [applySseEvent, h, hm]
    exact ih (applySseEvent m e) hm' hes'

/-- C8: every outbound upstream request is a POST to the fixed local
endpoint whose body is exactly the envelope
`{action: <action>, version: 6, params: <params>}`, for every action and
params passed to `ankiRequest`. -/
theorem c8_request_envelope (action : String) (params : Json) :
    (buildAnkiHttpRequest action params).url = "http://localhost:8765"
    ∧ (buildAnkiHttpRequest action params).method = "POST"
    ∧ (buildAnkiHttpRequest action params).body
        = Json.obj [("action", Json.str action), ("version", Json.num 6), ("params", params)]
    ∧ (buildAnkiHttpRequest action params).body.lookup "action" = some (Json.str action)
    ∧ (buildAnkiHttpRequest action params).body.lookup "version" = some (Json.num 6)
    ∧ (buildAnkiHttpRequest action params).body.lookup "params" = some params := by
  refine ⟨rfl, rfl, rfl, ?_, ?_, ?_⟩ <;> simp [buildAnkiHttpRequest, Json.lookup, List.find?]

/-- C1 counterexample: the `ankiRequest` of `src/simple-server.ts` receives
an upstream response whose error field is the non-null string
"collection is not available" and still returns the result value 42
instead of failing. -/
theorem c1_counterexample_simple_ignores_error :
    ankiRequestSimple (AnkiConnectResponse.mk (42 : Int) (some "collection is not available"))
      = Except.ok 42 := rfl

/-- C1 (amended): the express variant's `ankiRequest` surfaces a truthy
(non-null, non-empty) upstream error string as a thrown failure; the
`ankiRequest` of `src/simple-server.ts` (shared by the SSE and second stdio
variants) ignores the error field and always returns the result value. -/
theorem c1_error_surfacing (T : Type) (r : AnkiConnectResponse T) (e : String)
    (he : r.error = some e) (hne : e ≠ "") :
    ankiRequestExpress r = Except.error e
    ∧ ∀ r2 : AnkiConnectResponse T, ankiRequestSimple r2 = Except.ok r2.result := by
  constructor
  · simp [ankiRequestExpress, jsTruthy, he, hne]
  · intro r2
    rfl

/-- C1 witness: the amended statement applied to the concrete response
`{ result: 42, error: "collection is not available" }`. -/
theorem c1_error_surfacing_witness :
    ankiRequestExpress (AnkiConnectResponse.mk (42 : Int) (some "collection is not available"))
      = Except.error "collection is not available"
    ∧ ∀ r2 : AnkiConnectResponse Int, ankiRequestSimple r2 = Except.ok r2.result :=
  c1_error_surfacing Int
    (AnkiConnectResponse.mk (42 : Int) (some "collection is not available"))
    "collection is not available" rfl (by decide)

/-- C2 counterexample: the SSE-variant `getDueCards` handler, on a
`findCards` reply with an empty id list, still issues an upstream
`cardsInfo` call (with an empty card list) instead of returning without a
details call. -/
theorem c2_counterexample_sse_details_call :
    oracleEmpty.findCardsR "is:due" = []
    ∧ (getDueCardsSse oracleEmpty none).1
        = [UpstreamCall.findCards "is:due", UpstreamCall.cardsInfo []] :=
  ⟨rfl, rfl⟩

/-- C2 (amended): in `src/simple-server.ts`, `getDueCards` and
`getNewCards` with zero matching ids return the zero-count message and
issue no `cardsInfo` call; the SSE and express variants issue `cardsInfo`
unconditionally. -/
theorem c2_zero_match_no_details (o : AnkiOracle) (dn : Option String)
    (hdue : o.findCardsR (buildQuery "is:due" dn) = [])
    (hnew : o.findCardsR (buildQuery "is:new" dn) = []) :
    (getDueCardsHandler o dn).1 = [UpstreamCall.findCards (buildQuery "is:due" dn)]
    ∧ (getDueCardsHandler o dn).2
        = CountResponse.zero 0 (deckDisplay dn) "No cards currently due for review"
    ∧ (getNewCardsHandler o dn).1 = [UpstreamCall.findCards (buildQuery "is:new" dn)]
    ∧ (getNewCardsHandler o dn).2
        = CountResponse.zero 0 (deckDisplay dn) "No new cards available for learning" := by
  refine ⟨?_, ?_, ?_, ?_⟩ <;>
    simp [getDueCardsHandler, getNewCardsHandler, hdue, hnew]

/-- C2 witness: the amended statement at the oracle with no matching
cards and no deck filter. -/
theorem c2_zero_match_witness :
    (getDueCardsHandler oracleEmpty none).1 = [UpstreamCall.findCards "is:due"]
    ∧ (getDueCardsHandler oracleEmpty none).2
        = CountResponse.zero 0 "all decks" "No cards currently due for review"
    ∧ (getNewCardsHandler oracleEmpty none).1 = [UpstreamCall.findCards "is:new"]
    ∧ (getNewCardsHandler oracleEmpty none).2
        = CountResponse.zero 0 "all decks" "No new cards available for learning" :=
  c2_zero_match_no_details oracleEmpty none rfl rfl

/-- C3: `listDecks` places every deck name containing the separator into
the bucket keyed by its substring before the first separator, and a name
without the separator appears in the top-level `mainDecks` list and in no
bucket. -/
theorem c3_listDecks_grouping (o : AnkiOracle) (d : String) (hd : d ∈ o.deckNamesR) :
    (includesSep d = true → d ∈ (listDecksHandler o).2.organizedDecks (parentOf d))
    ∧ (includesSep d = false →
        d ∈ (listDecksHandler o).2.mainDecks
        ∧ ∀ p, d ∉ (listDecksHandler o).2.organizedDecks p) := by
  have horg : ∀ p, (listDecksHandler o).2.organizedDecks p
      = (o.deckNamesR.filter (fun x => includesSep x)).filter (fun x => parentOf x = p) := by
    intro p
    simp only [listDecksHandler]
    rw [bucketFold_apply]
    simp
  constructor
  · intro hsep
    rw [horg]
    exact List.mem_filter.mpr ⟨List.mem_filter.mpr ⟨hd, hsep⟩, by simp⟩
  · intro hsep
    constructor
    · simp only [listDecksHandler]
      exact List.mem_filter.mpr ⟨hd, by simp [hsep]⟩
    · intro p hm
      rw [horg] at hm
      have hsub := (List.mem_filter.mp (List.mem_filter.mp hm).1).2
      rw [hsep] at hsub
      exact Bool.false_ne_true hsub

/-- C3 witness: the grouping statement at a concrete deck list containing
both a nested name and top-level names. -/
theorem c3_listDecks_grouping_witness :
    (includesSep "Spanish::Verbs" = true →
      "Spanish::Verbs" ∈ (listDecksHandler oracleW).2.organizedDecks (parentOf "Spanish::Verbs"))
    ∧ (includesSep "Spanish::Verbs" = false →
        "Spanish::Verbs" ∈ (listDecksHandler oracleW).2.mainDecks
        ∧ ∀ p, "Spanish::Verbs" ∉ (listDecksHandler oracleW).2.organizedDecks p) :=
  c3_listDecks_grouping oracleW "Spanish::Verbs" (by decide)

/-- C4: `answerCard` maps ease 1/2/3/4 to the fixed labels, and for any
ease outside 1–4 the difficulty field is undefined while the handler still
returns the success response. -/
theorem c4_answerCard_ease_labels (o : AnkiOracle) (cid : Option Int) (e : Int)
    (he : e < 1 ∨ 4 < e) :
    easeLabelLookup (some 1) = some "Again (failed)"
    ∧ easeLabelLookup (some 2) = some "Hard"
    ∧ easeLabelLookup (some 3) = some "Good"
    ∧ easeLabelLookup (some 4) = some "Easy"
    ∧ (answerCardHandler o cid (some e)).2.difficulty = none
    ∧ (answerCardHandler o cid (some e)).2.success = true
    ∧ (answerCardHandler o cid (some e)).2.message = "Card answered successfully" := by
  have h1 : e ≠ 1 := by omega
  have h2 : e ≠ 2 := by omega
  have h3 : e ≠ 3 := by omega
  have h4 : e ≠ 4 := by omega
  refine ⟨rfl, rfl, rfl, rfl, ?_, rfl, rfl⟩
  simp [answerCardHandler, easeLabelLookup, h1, h2, h3, h4]

/-- C4 witness: the label statement at the out-of-range ease value 7. -/
theorem c4_answerCard_ease_labels_witness :
    easeLabelLookup (some 1) = some "Again (failed)"
    ∧ easeLabelLookup (some 2) = some "Hard"
    ∧ easeLabelLookup (some 3) = some "Good"
    ∧ easeLabelLookup (some 4) = some "Easy"
    ∧ (answerCardHandler oracleW (some 11) (some 7)).2.difficulty = none
    ∧ (answerCardHandler oracleW (some 11) (some 7)).2.success = true
    ∧ (answerCardHandler oracleW (some 11) (some 7)).2.message = "Card answered successfully" :=
  c4_answerCard_ease_labels oracleW (some 11) 7 (by omega)

/-- C5: once a session's entry is deleted from the transport table, any
later posted message carrying that session id — after any sequence of
events that does not open that id again — is answered with the not-found
error and is never routed to a transport. -/
theorem c5_closed_session_rejected (m : SessionTable) (es : List SseEvent) (sid : String)
    (hes : ∀ t, SseEvent.openSession sid t ∉ es) :
    handlePostSse (runSseEvents (applySseEvent m (SseEvent.closeSession sid)) es) sid
      = PostOutcome.notFound
    ∧ ∀ t, handlePostSse (runSseEvents (applySseEvent m (SseEvent.closeSession sid)) es) sid
        ≠ PostOutcome.routed t := by
  have hnone : runSseEvents (applySseEvent m (SseEvent.closeSession sid)) es sid = none := by
    refine runSseEvents_absent es sid (applySseEvent m (SseEvent.closeSession sid)) ?_ hes
    simp [applySseEvent]
  constructor
  · simp [handlePostSse, hnone]
  · intro t
    simp [handlePostSse, hnone]

/-- C5 witness: a table holding session "abc123", closed, followed by an
unrelated session's open and close; the posted message for "abc123" gets
the not-found outcome. -/
theorem c5_closed_session_rejected_witness :
    handlePostSse (runSseEvents (applySseEvent tableW (SseEvent.closeSession "abc123"))
        [SseEvent.openSession "xyz" 2, SseEvent.closeSession "xyz"]) "abc123"
      = PostOutcome.notFound
    ∧ ∀ t, handlePostSse (runSseEvents (applySseEvent tableW (SseEvent.closeSession "abc123"))
        [SseEvent.openSession "xyz" 2, SseEvent.closeSession "xyz"]) "abc123"
        ≠ PostOutcome.routed t :=
  c5_closed_session_rejected tableW [SseEvent.openSession "xyz" 2, SseEvent.closeSession "xyz"]
    "abc123" (by intro t ht; simp at ht)

/-- C6: a tool name outside the fixed catalog makes the stdio dispatcher
return the "Unknown tool" failure and makes the express route answer with
the caught 500 JSON-RPC error; both are total functions of the request, so
the failure is a returned error value, not a crash. -/
theorem c6_unknown_tool_error (o : AnkiOracle) (eo : ExpressOracle)
    (args : ToolArguments) (eargs : ExpressArgs) (name : String)
    (h1 : name ∉ simpleToolNames) (h2 : name ∉ expressToolNames) :
    dispatchTool o name args = Except.error "Unknown tool"
    ∧ (expressToolsCall eo name eargs).2 = Except.error ("Unknown tool: " ++ name)
    ∧ expressPostSse eo "tools/call" name eargs
        = HttpReply.rpcError 500 (-32603) ("Unknown tool: " ++ name) := by
  simp only [simpleToolNames, List.mem_cons, List.not_mem_nil, or_false, not_or] at h1
  simp only [expressToolNames, List.mem_cons, List.not_mem_nil, or_false, not_or] at h2
  obtain ⟨n1, n2, n3, n4, n5⟩ := h1
  obtain ⟨m1, m2, m3⟩ := h2
  refine ⟨?_, ?_, ?_⟩
  · simp [dispatchTool, n1, n2, n3, n4, n5]
  · simp [expressToolsCall, m1, m2, m3]
  · simp [expressPostSse, expressToolsCall, m1, m2, m3]

/-- C6 witness: the uncatalogued tool name "explode". -/
theorem c6_unknown_tool_error_witness :
    dispatchTool oracleW "explode" (ToolArguments.mk none none none none)
      = Except.error "Unknown tool"
    ∧ (expressToolsCall expressOracleW "explode" (ExpressArgs.mk none Json.null)).2
        = Except.error ("Unknown tool: " ++ "explode")
    ∧ expressPostSse expressOracleW "tools/call" "explode" (ExpressArgs.mk none Json.null)
        = HttpReply.rpcError 500 (-32603) ("Unknown tool: " ++ "explode") :=
  c6_unknown_tool_error oracleW expressOracleW (ToolArguments.mk none none none none)
    (ExpressArgs.mk none Json.null) "explode" (by decide) (by decide)

/-- C7: each supported tool issues exactly its documented upstream calls:
`listDecks` one `deckNames`; `getDueCards`/`getNewCards` a `findCards` on
the base query (extended with the deck filter for a non-empty deck name)
followed, when ids match, by one `cardsInfo` on the leading ids and
nothing else; `getNoteInfo` one `notesInfo`; `answerCard` one
`answerCards`; and the express `getDueCards` a `findCards` followed by one
`cardsInfo` on the first ten ids. -/
theorem c7_documented_call_sequence (o : AnkiOracle) (eo : ExpressOracle)
    (dn : Option String) (d : String) (nid cid e : Option Int)
    (hdue : o.findCardsR (buildQuery "is:due" dn) ≠ [])
    (hnew : o.findCardsR (buildQuery "is:new" dn) ≠ [])
    (hd : d ≠ "")
    (hef : (eo.findCardsR (buildQuery "is:due" dn)).error = none)
    (hec : (eo.cardsInfoR (((eo.findCardsR (buildQuery "is:due" dn)).result).take 10)).error
        = none) :
    buildQuery "is:due" none = "is:due"
    ∧ buildQuery "is:due" (some d) = "is:due deck:\"" ++ d ++ "\""
    ∧ (listDecksHandler o).1 = [UpstreamCall.deckNames]
    ∧ (getDueCardsHandler o dn).1
        = [UpstreamCall.findCards (buildQuery "is:due" dn),
           UpstreamCall.cardsInfo ((o.findCardsR (buildQuery "is:due" dn)).take 5)]
    ∧ (getNewCardsHandler o dn).1
        = [UpstreamCall.findCards (buildQuery "is:new" dn),
           UpstreamCall.cardsInfo ((o.findCardsR (buildQuery "is:new" dn)).take 5)]
    ∧ (getNoteInfoHandler o nid).1 = [UpstreamCall.notesInfo [nid]]
    ∧ (answerCardHandler o cid e).1 = [UpstreamCall.answerCards [(cid, e)]]
    ∧ (expressToolsCall eo "getDueCards" (ExpressArgs.mk dn Json.null)).1
        = [UpstreamCall.findCards (buildQuery "is:due" dn),
           UpstreamCall.cardsInfo (((eo.findCardsR (buildQuery "is:due" dn)).result).take 10)] := by
  refine ⟨rfl, by simp [buildQuery, hd], rfl, ?_, ?_, ?_, rfl, ?_⟩
  · simp [getDueCardsHandler, List.length_eq_zero, hdue]
  · simp [getNewCardsHandler, List.length_eq_zero, hnew]
  · cases h : o.notesInfoR [nid] <;> simp [getNoteInfoHandler, h]
  · simp [expressToolsCall, ankiRequestExpress, jsTruthy, hef, hec]

/-- C7 witness: the call-sequence statement at concrete oracles with
matching cards and error-free express responses. -/
theorem c7_documented_call_sequence_witness :
    buildQuery "is:due" none = "is:due"
    ∧ buildQuery "is:due" (some "Spanish") = "is:due deck:\"" ++ "Spanish" ++ "\""
    ∧ (listDecksHandler oracleW).1 = [UpstreamCall.deckNames]
    ∧ (getDueCardsHandler oracleW none).1
        = [UpstreamCall.findCards (buildQuery "is:due" none),
           UpstreamCall.cardsInfo ((oracleW.findCardsR (buildQuery "is:due" none)).take 5)]
    ∧ (getNewCardsHandler oracleW none).1
        = [UpstreamCall.findCards (buildQuery "is:new" none),
           UpstreamCall.cardsInfo ((oracleW.findCardsR (buildQuery "is:new" none)).take 5)]
    ∧ (getNoteInfoHandler oracleW (some 5)).1 = [UpstreamCall.notesInfo [some 5]]
    ∧ (answerCardHandler oracleW (some 11) (some 3)).1
        = [UpstreamCall.answerCards [(some 11, some 3)]]
    ∧ (expressToolsCall expressOracleW "getDueCards" (ExpressArgs.mk none Json.null)).1
        = [UpstreamCall.findCards (buildQuery "is:due" none),
           UpstreamCall.cardsInfo
             (((expressOracleW.findCardsR (buildQuery "is:due" none)).result).take 10)] :=
  c7_documented_call_sequence oracleW expressOracleW none "Spanish" (some 5) (some 11) (some 3)
    (by decide) (by decide) (by decide) rfl rfl

/-- C9: with a non-empty id list of length n and an upstream `cardsInfo`
that answers one entry per requested id, `getDueCards`/`getNewCards`
request details for exactly the first min(5, n) ids, the sample list has
exactly that many entries, and `remainingCards` equals max(0, n - 5), so
it is never negative. -/
theorem c9_sample_and_remaining (o : AnkiOracle) (dn : Option String)
    (hlen : ∀ cs, (o.cardsInfoR cs).length = cs.length)
    (hdue : o.findCardsR (buildQuery "is:due" dn) ≠ [])
    (hnew : o.findCardsR (buildQuery "is:new" dn) ≠ []) :
    ((o.findCardsR (buildQuery "is:due" dn)).take 5).length
        = min 5 (o.findCardsR (buildQuery "is:due" dn)).length
    ∧ (getDueCardsHandler o dn).1
        = [UpstreamCall.findCards (buildQuery "is:due" dn),
           UpstreamCall.cardsInfo ((o.findCardsR (buildQuery "is:due" dn)).take 5)]
    ∧ ((getDueCardsHandler o dn).2.sampleCards).length
        = min 5 (o.findCardsR (buildQuery "is:due" dn)).length
    ∧ (getDueCardsHandler o dn).2.remainingCards
        = max 0 (((o.findCardsR (buildQuery "is:due" dn)).length : Int) - 5)
    ∧ 0 ≤ (getDueCardsHandler o dn).2.remainingCards
    ∧ (getNewCardsHandler o dn).1
        = [UpstreamCall.findCards (buildQuery "is:new" dn),
           UpstreamCall.cardsInfo ((o.findCardsR (buildQuery "is:new" dn)).take 5)]
    ∧ ((getNewCardsHandler o dn).2.sampleCards).length
        = min 5 (o.findCardsR (buildQuery "is:new" dn)).length
    ∧ (getNewCardsHandler o dn).2.remainingCards
        = max 0 (((o.findCardsR (buildQuery "is:new" dn)).length : Int) - 5)
    ∧ 0 ≤ (getNewCardsHandler o dn).2.remainingCards := by
  refine ⟨List.length_take 5 _, ?_, ?_, ?_, ?_, ?_, ?_, ?_, ?_⟩ <;>
    simp [getDueCardsHandler, getNewCardsHandler, List.length_eq_zero, hdue, hnew,
      CountResponse.sampleCards, CountResponse.remainingCards, hlen, List.length_take,
      le_max_left]

/-- C9 witness: the sample/remaining statement at the oracle returning
three matching cards and one info entry per requested id. -/
theorem c9_sample_and_remaining_witness :
    ((oracleW.findCardsR (buildQuery "is:due" none)).take 5).length
        = min 5 (oracleW.findCardsR (buildQuery "is:due" none)).length
    ∧ (getDueCardsHandler oracleW none).1
        = [UpstreamCall.findCards (buildQuery "is:due" none),
           UpstreamCall.cardsInfo ((oracleW.findCardsR (buildQuery "is:due" none)).take 5)]
    ∧ ((getDueCardsHandler oracleW none).2.sampleCards).length
        = min 5 (oracleW.findCardsR (buildQuery "is:due" none)).length
    ∧ (getDueCardsHandler oracleW none).2.remainingCards
        = max 0 (((oracleW.findCardsR (buildQuery "is:due" none)).length : Int) - 5)
    ∧ 0 ≤ (getDueCardsHandler oracleW none).2.remainingCards
    ∧ (getNewCardsHandler oracleW none).1
        = [UpstreamCall.findCards (buildQuery "is:new" none),
           UpstreamCall.cardsInfo ((oracleW.findCardsR (buildQuery "is:new" none)).take 5)]
    ∧ ((getNewCardsHandler oracleW none).2.sampleCards).length
        = min 5 (oracleW.findCardsR (buildQuery "is:new" none)).length
    ∧ (getNewCardsHandler oracleW none).2.remainingCards
        = max 0 (((oracleW.findCardsR (buildQuery "is:new" none)).length : Int) - 5)
    ∧ 0 ≤ (getNewCardsHandler oracleW none).2.remainingCards :=
  c9_sample_and_remaining oracleW none
    (fun cs => by simp [oracleW]) (by decide) (by decide)

/-- C10: an empty-string deckName is falsy in the handlers' truthiness
checks, so the query stays unfiltered and the whole handler behaves
exactly as with an omitted deckName. -/
theorem c10_empty_deckName_like_omitted (o : AnkiOracle) :
    buildQuery "is:due" (some "") = buildQuery "is:due" none
    ∧ buildQuery "is:new" (some "") = buildQuery "is:new" none
    ∧ buildQuery "is:due" none = "is:due"
    ∧ buildQuery "is:new" none = "is:new"
    ∧ getDueCardsHandler o (some "") = getDueCardsHandler o none
    ∧ getNewCardsHandler o (some "") = getNewCardsHandler o none
    ∧ getDueCardsSse o (some "") = getDueCardsSse o none := by
  refine ⟨?_, ?_, rfl, rfl, ?_, ?_, ?_⟩ <;>
    simp [buildQuery, deckDisplay, getDueCardsHandler, getNewCardsHandler, getDueCardsSse]

end AnkiMcp
